import Mathlib

/-!
Verification development for the qBittorrent-Remote repository.

The Python sources (`qbittorrent_client.py`, `settings_store.py`, `main.py`)
are shallowly embedded below: pure computations become Lean functions,
stateful methods become explicit state-passing functions, HTTP traffic is
represented by the response (or network failure) the `requests` session
would deliver, and Python exceptions become `Except`/`Option` results.
-/

namespace QRemote

/-- Does `pat` occur as a contiguous sublist of `s`?  (The empty pattern
occurs everywhere.) -/
def charsContain (s pat : List Char) : Bool :=
  match s with
  | [] => pat.isEmpty
  | _ :: rest => pat.isPrefixOf s || charsContain rest pat

/-- Python's `pat in s` substring test (for strings). -/
def strContains (s pat : String) : Bool :=
  charsContain s.data pat.data

/-- Python's `str.lower()` (ASCII case folding, as the hostnames and
search terms here use). -/
def pyLower (s : String) : String :=
  ⟨s.data.map Char.toLower⟩

/-- Python's `str.strip()` (whitespace trimming at both ends). -/
def pyStrip (s : String) : String :=
  ⟨((s.data.dropWhile Char.isWhitespace).reverse.dropWhile Char.isWhitespace).reverse⟩

/-! ### Association lists

Python `dict`s keyed by strings are embedded as ordered association lists,
mirroring CPython's insertion-ordered dictionaries.  `assocInsert` models
`d[k] = v` (updating in place preserves the key's position; a new key is
appended), `assocGetD` models `d.get(k, default)`, `assocHasKey` models
`k in d`. -/

def assocHasKey {α : Type} (m : List (String × α)) (k : String) : Bool :=
  m.any (fun p => p.1 == k)

def assocGetD {α : Type} (m : List (String × α)) (k : String) (d : α) : α :=
  match m.find? (fun p => p.1 == k) with
  | some p => p.2
  | none => d

def assocInsert {α : Type} (m : List (String × α)) (k : String) (v : α) :
    List (String × α) :=
  if assocHasKey m k then
    m.map (fun p => if p.1 == k then (k, v) else p)
  else
    m ++ [(k, v)]

/-! ## API client (`qbittorrent_client.py`)

`QBittorrentClient` keeps a `requests.Session` (cookies) and an
`_is_authenticated` flag.  An HTTP exchange is embedded by passing in the
response the session returns (or a network-level failure).  Both error
branches of `_request`, and `login`'s bad-body branch, raise the single
Python class `QBittorrentAPIError`; the constructors below distinguish the
raise sites, carrying exactly the data each site puts in the message. -/

structure HttpResponse where
  status_code : Nat
  text : String

/-- The distinct failure modes surfaced by the client.  `authFailure` is the
`QBittorrentAPIError` raised at `_request`'s 403 branch and at `login`'s
bad-body check; `apiFailure` is the one raised at the `status_code >= 400`
branch (its message interpolates the status and body); `connectionError`
stands for any exception thrown by the `requests` library itself before a
response exists. -/
inductive RequestError where
  | authFailure (message : String)
  | apiFailure (status : Nat) (body : String)
  | connectionError

/-- The mutable state of `QBittorrentClient`: the `_is_authenticated` flag
and the session's cookie jar (modelled as an abstract list of cookies). -/
structure ClientState where
  authenticated : Bool
  cookies : List String

/-- `QBittorrentClient._request`, lines 89-99: given the response the
session produced, a 403 clears `_is_authenticated` and raises; any other
status `>= 400` raises with the status and body; otherwise the response is
returned unchanged. -/
def request (st : ClientState) (resp : HttpResponse) :
    ClientState × Except RequestError HttpResponse :=
  if resp.status_code == 403 then
    ({ st with authenticated := false },
     Except.error (RequestError.authFailure "Authentication failed or session expired"))
  else if resp.status_code ≥ 400 then
    (st, Except.error (RequestError.apiFailure resp.status_code resp.text))
  else
    (st, Except.ok resp)

/-- `QBittorrentClient.login`, lines 104-112: posts to `auth/login` (the
response is `resp`); on a successful response whose body does not contain
`"Ok."` it raises `QBittorrentAPIError("Invalid username or password")`;
only when the body contains `"Ok."` is `_is_authenticated` set. -/
def login (st : ClientState) (resp : HttpResponse) :
    ClientState × Except RequestError Unit :=
  match request st resp with
  | (st1, Except.error e) => (st1, Except.error e)
  | (st1, Except.ok r) =>
    if strContains r.text "Ok." then
      ({ st1 with authenticated := true }, Except.ok ())
    else
      (st1, Except.error (RequestError.authFailure "Invalid username or password"))

/-- Outcome of the raw HTTP exchange underlying one call: either the
`requests` library itself threw, or a response arrived. -/
inductive NetOutcome where
  | exn
  | response (r : HttpResponse)

/-- `QBittorrentClient.logout`, lines 114-119: `try: _request(...)` with a
`finally` block that clears `_is_authenticated` and the session cookies,
whatever the request did.  The returned `Option RequestError` is the
exception (if any) propagating out of `logout` after the `finally` ran. -/
def logout (st : ClientState) (out : NetOutcome) :
    ClientState × Option RequestError :=
  let pair : ClientState × Option RequestError :=
    match out with
    | NetOutcome.exn => (st, some RequestError.connectionError)
    | NetOutcome.response r =>
      match request st r with
      | (s1, Except.error e) => (s1, some e)
      | (s1, Except.ok _) => (s1, none)
  ({ pair.1 with authenticated := false, cookies := [] }, pair.2)

/-- `"|".join(hashes)`. -/
def joinHashes (hashes : List String) : String :=
  String.intercalate "|" hashes

/-- The form data of one outgoing torrent-management POST: its path, the
joined `hashes` field, and (for delete) the `deleteFiles` field. -/
structure BulkRequest where
  path : String
  hashes : String
  deleteFiles : Option String

/-- `QBittorrentClient._bulk_action`, lines 208-213: joins the hashes,
raises `ValueError("At least one torrent hash is required")` when the
joined string is empty, otherwise posts the request.  The result is the
request that would be sent (no request is produced on the error path). -/
def bulk_action (path : String) (hashes : List String) :
    Except String BulkRequest :=
  let joined := joinHashes hashes
  if joined == "" then
    Except.error "At least one torrent hash is required"
  else
    Except.ok { path := path, hashes := joined, deleteFiles := none }

/-- `pause_torrents`, line 169-170. -/
def pause_torrents (hashes : List String) : Except String BulkRequest :=
  bulk_action "torrents/pause" hashes

/-- `resume_torrents`, line 172-173. -/
def resume_torrents (hashes : List String) : Except String BulkRequest :=
  bulk_action "torrents/resume" hashes

/-- `recheck_torrents`, line 175-176. -/
def recheck_torrents (hashes : List String) : Except String BulkRequest :=
  bulk_action "torrents/recheck" hashes

/-- `increase_priority`, line 185-186. -/
def increase_priority (hashes : List String) : Except String BulkRequest :=
  bulk_action "torrents/increasePrio" hashes

/-- `decrease_priority`, line 188-189. -/
def decrease_priority (hashes : List String) : Except String BulkRequest :=
  bulk_action "torrents/decreasePrio" hashes

/-- `QBittorrentClient.delete_torrents`, lines 178-183: builds the form data
directly (it does not call `_bulk_action`) and posts it unconditionally;
there is no emptiness check on `hashes`. -/
def delete_torrents (hashes : List String) (delete_files : Bool) :
    Except String BulkRequest :=
  Except.ok { path := "torrents/delete",
              hashes := joinHashes hashes,
              deleteFiles := some (if delete_files then "true" else "false") }

/-! ## Main window pipeline (`main.py`)

The polling/filter pipeline of `MainFrame`.  wx widgets are replaced by the
data they hold: the filter choice and search control by the strings read
from them, the torrent list control by the list it renders. -/

/-- `MAX_TRACKER_LOOKUPS_PER_REFRESH`, `main.py` line 25. -/
def MAX_TRACKER_LOOKUPS_PER_REFRESH : Nat := 40

/-- `FILTER_CHOICES`, `main.py` lines 27-36. -/
def FILTER_CHOICES : List String :=
  ["all", "downloading", "seeding", "completed", "paused", "resumed",
   "stalled", "errored"]

/-- `TorrentDetail` (`qbittorrent_client.py` lines 39-54).  The two
floating-point display fields (`progress`, `ratio`) are never read by any
logic embedded here and are omitted. -/
structure TorrentDetail where
  infohash_v1 : String
  name : String
  state : String
  dlspeed : Int
  upspeed : Int
  eta : Int
  category : String
  num_seeds : Int
  num_leechs : Int

/-- `self._tracker_map : Dict[str, set]`, hash to discovered tracker host
set (a host set is embedded as a duplicate-free list). -/
abbrev TrackerMap := List (String × List String)

/-- `self._tracker_map.get(h, set())`. -/
def trackerGet (tm : TrackerMap) (h : String) : List String :=
  assocGetD tm h []

/-- The filtering computation of `_apply_client_side_filters` (`main.py`
lines 1401-1411): starting from the latest fetched torrents, narrow by the
tracker host when the selection is not one of the fixed status filters
(and non-empty), then by the lowercased, stripped search text when it is
non-empty. -/
def applyClientSideFilters (allTorrents : List TorrentDetail) (tm : TrackerMap)
    (selection : String) (searchRaw : String) : List TorrentDetail :=
  let searchText := pyLower (pyStrip searchRaw)
  let candidate := allTorrents
  let candidate :=
    if !(FILTER_CHOICES.contains selection) && selection != "" then
      candidate.filter (fun t => (trackerGet tm t.infohash_v1).contains selection)
    else candidate
  if searchText != "" then
    candidate.filter (fun t => strContains (pyLower t.name) searchText)
  else candidate

/-- The display-side state touched by `_apply_client_side_filters`:
`self._displayed_hashes`, the contents of the list control, the status-bar
text, and a counter of `self._list.update_from` calls (one per re-render). -/
structure DisplayState where
  displayedHashes : List String
  renderedList : List TorrentDetail
  status : Option String
  renderCount : Nat

/-- `_apply_client_side_filters` (`main.py` lines 1401-1421) as a step on
the display state: compute the candidate list, and if its hash sequence
equals `_displayed_hashes`, skip the rebuild (optionally updating the
status line); otherwise store the new hashes, re-render, and optionally
update the status line. -/
def applyFiltersStep (allTorrents : List TorrentDetail) (tm : TrackerMap)
    (selection searchRaw : String) (announce : Bool) (st : DisplayState) :
    DisplayState :=
  let candidate := applyClientSideFilters allTorrents tm selection searchRaw
  let newHashes := candidate.map (fun t => t.infohash_v1)
  let msg := "Loaded " ++ toString candidate.length ++ " torrents"
  if newHashes = st.displayedHashes then
    if announce then { st with status := some msg } else st
  else
    { displayedHashes := newHashes,
      renderedList := candidate,
      status := if announce then some msg else st.status,
      renderCount := st.renderCount + 1 }

/-- `_ensure_tracker_hosts`, `main.py` line 1426: the hashes of fetched
torrents that have no `_tracker_map` entry yet. -/
def missingHashes (torrents : List TorrentDetail) (tm : TrackerMap) :
    List String :=
  (torrents.filter (fun t => !(assocHasKey tm t.infohash_v1))).map
    (fun t => t.infohash_v1)

/-- `_ensure_tracker_hosts`, `main.py` line 1432: cap the missing hashes at
`MAX_TRACKER_LOOKUPS_PER_REFRESH` per refresh. -/
def toFetch (torrents : List TorrentDetail) (tm : TrackerMap) : List String :=
  (missingHashes torrents tm).take MAX_TRACKER_LOOKUPS_PER_REFRESH

/-- Lines 1441-1453 of the tracker worker: strip and lowercase each raw
host string, drop empty ones, and collect the rest into a set.  The raw
strings are the `parsed.hostname or parsed.netloc or ""` values of the
tracker entries whose URL parsed with a scheme; `urlparse` itself is part
of the lookup oracle below. -/
def extractHosts (raws : List String) : List String :=
  raws.foldl
    (fun acc r =>
      let host := pyLower (pyStrip r)
      if host == "" then acc
      else if acc.contains host then acc else acc ++ [host])
    []

/-- The tracker worker's loop (`main.py` lines 1434-1458).  `lookup h` is
the outcome of `self.client.get_torrent_trackers(h)` combined with
`urlparse`: `none` when the call raised (the `except: continue` branch, so
nothing is recorded), `some raws` when it returned tracker entries whose
scheme-bearing URLs yielded the raw host strings `raws`.  Every completed
lookup stores an entry — the extracted host set, possibly empty. -/
def runTrackerWorker (tm : TrackerMap) (lookup : String → Option (List String))
    (fetchList : List String) : TrackerMap :=
  fetchList.foldl
    (fun acc h =>
      match lookup h with
      | none => acc
      | some raws => assocInsert acc h (extractHosts raws))
    tm

/-- `_ensure_tracker_hosts` (`main.py` lines 1424-1462): determine the
missing hashes, cap them, and run the worker.  (When nothing is missing the
function returns early without starting a worker; the resulting map is the
same.) -/
def ensureTrackerHosts (torrents : List TorrentDetail) (tm : TrackerMap)
    (lookup : String → Option (List String)) : TrackerMap :=
  runTrackerWorker tm lookup (toFetch torrents tm)

/-- The caches cleared on disconnect / profile switch. -/
structure UiCaches where
  tracker_map : TrackerMap
  displayed_hashes : List String
  all_torrents : List TorrentDetail

/-- `_switch_profile` / disconnect cache clearing (`main.py` lines
1100-1108): `_tracker_map.clear()`, `_displayed_hashes.clear()`,
`_all_torrents.clear()`. -/
def clearCaches (_c : UiCaches) : UiCaches :=
  { tracker_map := [], displayed_hashes := [], all_torrents := [] }

/-- Observable outcome of one invocation of the delete command. -/
inductive DeleteOutcome where
  | notConnected (message : String)
  | requireSelection (message : String)
  | cancelled
  | endpointCalled (hashes : List String) (deleteFiles : Bool)

/-- `MainFrame._delete_selected` (`main.py` lines 1494-1517): bail out with
the not-connected message when unauthenticated; bail out with the
`_announce_require_selection` message ("Select a torrent first", line 1594)
when nothing is selected; honour the confirmation dialog; only then call
`client.delete_torrents`. -/
def delete_selected (isAuthenticated : Bool) (selected : List String)
    (confirmDelete : Bool) (userConfirms : Bool) (deleteFiles : Bool) :
    DeleteOutcome :=
  if !isAuthenticated then
    DeleteOutcome.notConnected "Connect to a qBittorrent server first"
  else if selected.isEmpty then
    DeleteOutcome.requireSelection "Select a torrent first"
  else if confirmDelete && !userConfirms then
    DeleteOutcome.cancelled
  else
    DeleteOutcome.endpointCalled selected deleteFiles

/-! ## Settings store (`settings_store.py`)

The settings file is embedded as a JSON value (`JValue`); `json.load`'s
possible outcomes as a `FileState`.  JSON numbers are modelled as integers
(every number this store reads or writes is one).  Python object fields are
insertion-ordered association lists, so document equality is equality of
the serialized JSON. -/

inductive JValue where
  | null
  | bool (b : Bool)
  | num (n : Int)
  | str (s : String)
  | arr (xs : List JValue)
  | obj (fields : List (String × JValue))

/-- Python truthiness of a JSON value (`None`, `False`, `0`, `""`, `[]`,
`{}` are falsy). -/
def jTruthy : JValue → Bool
  | JValue.null => false
  | JValue.bool b => b
  | JValue.num n => n != 0
  | JValue.str s => s != ""
  | JValue.arr xs => !xs.isEmpty
  | JValue.obj fs => !fs.isEmpty

/-- Python `int(x)` on a JSON value: identity on numbers, `True`/`False`
become 1/0, strings are parsed (stripping whitespace), everything else
raises (`none`). -/
def jToInt : JValue → Option Int
  | JValue.num n => some n
  | JValue.bool b => some (if b then 1 else 0)
  | JValue.str s => (pyStrip s).toInt?
  | _ => none

mutual

/-- Python `repr` of a JSON value (used by `str()` on non-strings):
`None`/`True`/`False`, decimal numbers, quoted strings (quote-escaping
edge cases are simplified to a plain single-quoted form), bracketed
comma-separated lists and dicts. -/
def pyRepr : JValue → String
  | JValue.null => "None"
  | JValue.bool true => "True"
  | JValue.bool false => "False"
  | JValue.num n => toString n
  | JValue.str s => "'" ++ s ++ "'"
  | JValue.arr xs => "[" ++ pyReprArr xs ++ "]"
  | JValue.obj fs => "\x7b" ++ pyReprObj fs ++ "\x7d"

def pyReprArr : List JValue → String
  | [] => ""
  | [x] => pyRepr x
  | x :: y :: xs => pyRepr x ++ ", " ++ pyReprArr (y :: xs)

def pyReprObj : List (String × JValue) → String
  | [] => ""
  | [p] => "'" ++ p.1 ++ "': " ++ pyRepr p.2
  | p :: q :: ps => "'" ++ p.1 ++ "': " ++ pyRepr p.2 ++ ", " ++ pyReprObj (q :: ps)

end

/-- Python `str(x)` on a JSON value: identity on strings, `repr`-style
rendering otherwise (`str(None) = "None"`, `str(True) = "True"`, ...). -/
def jToPyStr : JValue → String
  | JValue.str s => s
  | v => pyRepr v

/-- What `json.load` produced: the file is absent, unparseable, or a
parsed document. -/
inductive FileState where
  | absent
  | malformed
  | parsed (doc : JValue)

/-- `ConnectionSettings` as the settings store sees it.  The dataclass
performs no type validation, so each field holds whatever JSON value the
document supplied (the defaults are the typed dataclass defaults from
`qbittorrent_client.py` lines 26-30). -/
structure ConnRecord where
  host : JValue
  username : JValue
  password : JValue
  verify_ssl : JValue
  timeout : JValue

/-- The `ConnectionSettings()` defaults. -/
def defaultConnRecord : ConnRecord :=
  { host := JValue.str "http://127.0.0.1:8080",
    username := JValue.str "admin",
    password := JValue.str "adminadmin",
    verify_ssl := JValue.bool true,
    timeout := JValue.num 15 }

/-- The field names `ConnectionSettings(**kwargs)` accepts. -/
def connKeys : List String :=
  ["host", "username", "password", "verify_ssl", "timeout"]

/-- `asdict(conn)`: the dataclass fields in declaration order. -/
def connToJson (c : ConnRecord) : JValue :=
  JValue.obj
    [("host", c.host), ("username", c.username), ("password", c.password),
     ("verify_ssl", c.verify_ssl), ("timeout", c.timeout)]

/-- `ConnectionSettings(**d)`: succeeds exactly when `d` is a mapping all
of whose keys are dataclass fields (missing fields take their defaults);
anything else raises (`none`). -/
def connStrict : JValue → Option ConnRecord
  | JValue.obj fs =>
    if fs.all (fun p => connKeys.contains p.1) then
      some { host := assocGetD fs "host" defaultConnRecord.host,
             username := assocGetD fs "username" defaultConnRecord.username,
             password := assocGetD fs "password" defaultConnRecord.password,
             verify_ssl := assocGetD fs "verify_ssl" defaultConnRecord.verify_ssl,
             timeout := assocGetD fs "timeout" defaultConnRecord.timeout }
    else none
  | _ => none

/-- `ConnectionSettings(**(conn_dict or {}))` (`settings_store.py` line
48): a falsy value is replaced by the empty mapping first. -/
def connFromDictOr (j : JValue) : Option ConnRecord :=
  connStrict (if jTruthy j then j else JValue.obj [])

/-- `settings_store.py` lines 43-50: read `data.get("profiles") or {}`,
and when it is a non-empty dict, build the profile dict from the entries
whose connection dict converts (failures are skipped). -/
def parsedProfiles (fields : List (String × JValue)) :
    List (String × ConnRecord) :=
  let pd := assocGetD fields "profiles" JValue.null
  let pd := if jTruthy pd then pd else JValue.obj []
  match pd with
  | JValue.obj pfs =>
    pfs.foldl
      (fun m p =>
        match connFromDictOr p.2 with
        | some c => assocInsert m p.1 c
        | none => m)
      []
  | _ => []

/-- `settings_store.py` lines 58-61: `str(data.get("active_profile") or
"Default")`, falling back to the first saved profile when that name is not
a profile.  (The empty-profiles case never reaches this code; `""` is a
junk value standing for the `StopIteration` `next(iter({}))` would raise.) -/
def resolveActive (profiles : List (String × ConnRecord)) (raw : JValue) :
    String :=
  let a := jToPyStr (if jTruthy raw then raw else JValue.str "Default")
  if assocHasKey profiles a then a
  else
    match profiles.head? with
    | some p => p.1
    | none => ""

/-- In-memory `AppSettings` (`settings_store.py` lines 17-28). -/
structure AppSettingsM where
  connection : ConnRecord
  refresh_seconds : Int
  auto_refresh : Bool
  default_filter : String
  confirm_delete : Bool
  configured : Bool
  profiles : List (String × ConnRecord)
  active_profile : String

/-- The settings returned when the file is absent or anything during
parsing raises (`settings_store.py` lines 32-38 and 80-82). -/
def defaultAppSettings : AppSettingsM :=
  { connection := defaultConnRecord,
    refresh_seconds := 5,
    auto_refresh := true,
    default_filter := "all",
    confirm_delete := true,
    configured := false,
    profiles := [("Default", defaultConnRecord)],
    active_profile := "Default" }

/-- The body of `load_settings`'s `try` block on a parsed document
(`settings_store.py` lines 41-79).  `none` means some statement raised and
the `except` branch returns the defaults: the document is not an object
(`data.get` fails), the legacy `ConnectionSettings(**connection_data)`
call fails, or `int(...)` fails. -/
def loadDoc : JValue → Option AppSettingsM
  | JValue.obj fields =>
    let profiles0 := parsedProfiles fields
    let step : Option (List (String × ConnRecord) × String) :=
      if profiles0.isEmpty then
        (connStrict (assocGetD fields "connection" (JValue.obj []))).map
          (fun single => ([("Default", single)], "Default"))
      else
        some (profiles0,
              resolveActive profiles0 (assocGetD fields "active_profile" JValue.null))
    match step with
    | none => none
    | some (profiles, active) =>
      match jToInt (assocGetD fields "refresh_seconds" (JValue.num 5)) with
      | none => none
      | some refresh =>
        some { connection := assocGetD profiles active defaultConnRecord,
               refresh_seconds := refresh,
               auto_refresh := jTruthy (assocGetD fields "auto_refresh" (JValue.bool true)),
               default_filter := jToPyStr (assocGetD fields "default_filter" (JValue.str "all")),
               confirm_delete := jTruthy (assocGetD fields "confirm_delete" (JValue.bool true)),
               configured := true,
               profiles := profiles,
               active_profile := active }
  | _ => none

/-- `load_settings` (`settings_store.py` lines 31-82): defaults when the
file is absent, unparseable, or the `try` body raised. -/
def load_settings : FileState → AppSettingsM
  | FileState.absent => defaultAppSettings
  | FileState.malformed => defaultAppSettings
  | FileState.parsed doc => (loadDoc doc).getD defaultAppSettings

/-- The fields of the payload `save_settings` persists (`settings_store.py`
lines 86-96), in source order. -/
def saveFields (s : AppSettingsM) : List (String × JValue) :=
  [("connection", connToJson s.connection),
   ("refresh_seconds", JValue.num s.refresh_seconds),
   ("auto_refresh", JValue.bool s.auto_refresh),
   ("default_filter", JValue.str s.default_filter),
   ("confirm_delete", JValue.bool s.confirm_delete),
   ("profiles", JValue.obj (s.profiles.map (fun p => (p.1, connToJson p.2)))),
   ("active_profile", JValue.str s.active_profile)]

/-- The JSON document `save_settings` persists. -/
def save_settings (s : AppSettingsM) : JValue :=
  JValue.obj (saveFields s)

/-! ## Spec-side definitions

Written from the specification's words, to be compared against the
embedded code. -/

/-- Spec: "the status-or-tracker filter (a tracker-host filter keeps a
torrent iff that host is in its tracker-host map entry)".  A fixed status
selection (or an empty one) keeps everything at this stage, because the
snapshot was already fetched with that status filter server-side. -/
def specFilterKeeps (tm : TrackerMap) (sel : String) (t : TorrentDetail) : Prop :=
  if sel ∈ FILTER_CHOICES ∨ sel = "" then True
  else sel ∈ trackerGet tm t.infohash_v1

/-- Spec: "a case-insensitive substring match of the search term against
the torrent name" (the empty search term matches every name). -/
def specSearchMatches (searchRaw : String) (t : TorrentDetail) : Prop :=
  strContains (pyLower t.name) (pyLower (pyStrip searchRaw)) = true

/-- Duplicate-freedom of an association list's keys (what a Python dict
guarantees by construction). -/
def KeysNodup {α : Type} (m : List (String × α)) : Prop :=
  (m.map Prod.fst).Nodup

/-! ## Sample values used by witnesses and counterexamples -/

/-- A torrent named "X" with identifier "a" (spec section 8 scenario). -/
def sampleTorrentA : TorrentDetail :=
  { infohash_v1 := "a", name := "X", state := "downloading", dlspeed := 0,
    upspeed := 0, eta := -1, category := "", num_seeds := 0, num_leechs := 0 }

/-- A torrent with identifier "b" whose tracker-host entry holds
"tracker.example.com". -/
def sampleTorrentB : TorrentDetail :=
  { infohash_v1 := "b", name := "Y", state := "seeding", dlspeed := 0,
    upspeed := 0, eta := -1, category := "", num_seeds := 0, num_leechs := 0 }

/-- An `AppSettings` with an empty profiles map and active profile "X":
the round-trip claim fails on it. -/
def sampleNoProfiles : AppSettingsM :=
  { connection := defaultConnRecord, refresh_seconds := 5,
    auto_refresh := true, default_filter := "all", confirm_delete := true,
    configured := true, profiles := [], active_profile := "X" }

/-- A legacy settings document: no profiles key, a single connection. -/
def sampleLegacyFields : List (String × JValue) :=
  [("connection", JValue.obj [("host", JValue.str "http://h:1")])]

/-- The connection record `sampleLegacyFields` describes. -/
def sampleLegacyConn : ConnRecord :=
  { defaultConnRecord with host := JValue.str "http://h:1" }

/-- An `AppSettings` with one profile "Work", active. -/
def sampleOneProfile : AppSettingsM :=
  { connection := { defaultConnRecord with host := JValue.str "http://w:9" },
    refresh_seconds := 7, auto_refresh := false, default_filter := "seeding",
    confirm_delete := false, configured := true,
    profiles := [("Work", { defaultConnRecord with host := JValue.str "http://w:9" })],
    active_profile := "Work" }

/-! ## Helper lemmas -/

theorem charsContain_nil_pat (s : List Char) : charsContain s [] = true := by
  induction s with
  | nil => rfl
  | cons c rest ih => simp [charsContain, ih]

theorem strContains_empty_pat (s : String) : strContains s "" = true := by
  simp [strContains, charsContain_nil_pat]

theorem trackerCond_true (sel : String)
    (h : (!(FILTER_CHOICES.contains sel) && sel != "") = true) :
    ¬ (sel ∈ FILTER_CHOICES ∨ sel = "") := by
  simp only [Bool.and_eq_true, Bool.not_eq_true', bne_iff_ne] at h
  simp only [not_or]
  refine ⟨fun hm => ?_, h.2⟩
  have hc : FILTER_CHOICES.contains sel = true := List.elem_iff.mpr hm
  rw [h.1] at hc
  exact Bool.false_ne_true hc

theorem trackerCond_false (sel : String)
    (h : ¬ (!(FILTER_CHOICES.contains sel) && sel != "") = true) :
    sel ∈ FILTER_CHOICES ∨ sel = "" := by
  by_cases hc : sel ∈ FILTER_CHOICES
  · exact Or.inl hc
  · right
    by_contra hne
    apply h
    simp only [Bool.and_eq_true, Bool.not_eq_true', bne_iff_ne]
    refine ⟨?_, hne⟩
    cases hb : FILTER_CHOICES.contains sel with
    | false => rfl
    | true => exact absurd (List.elem_iff.mp hb) hc

theorem request_of_lt400 (st : ClientState) (resp : HttpResponse)
    (h : resp.status_code < 400) : request st resp = (st, Except.ok resp) := by
  have hb : (resp.status_code == 403) = false := by
    simp only [beq_eq_false_iff_ne]
    omega
  have h4 : ¬ resp.status_code ≥ 400 := by omega
  simp [request, hb, h4]

/-! ## Claim theorems -/

/-- C5: a 403 response clears the authenticated flag and surfaces the
authentication-failure error; any other response with status `>= 400`
surfaces the API error carrying the status code and body; responses below
400 raise nothing and are returned unchanged. -/
theorem request_error_taxonomy (st : ClientState) (resp : HttpResponse) :
    (resp.status_code = 403 →
      (request st resp).1.authenticated = false ∧
      (request st resp).2 =
        Except.error (RequestError.authFailure "Authentication failed or session expired")) ∧
    (resp.status_code ≠ 403 → 400 ≤ resp.status_code →
      (request st resp).1 = st ∧
      (request st resp).2 =
        Except.error (RequestError.apiFailure resp.status_code resp.text)) ∧
    (resp.status_code < 400 →
      (request st resp).1 = st ∧ (request st resp).2 = Except.ok resp) := by
  refine ⟨?_, ?_, ?_⟩
  · intro h
    simp [request, h]
  · intro hne h4
    have hb : (resp.status_code == 403) = false := by
      simp only [beq_eq_false_iff_ne]
      exact hne
    simp [request, hb, h4]
  · intro h
    rw [request_of_lt400 st resp h]
    exact ⟨rfl, rfl⟩

/-- Witness for C5 at a concrete 403 response. -/
theorem request_error_taxonomy_witness :
    (request ⟨true, ["sid"]⟩ ⟨403, "denied"⟩).1.authenticated = false ∧
    (request ⟨true, ["sid"]⟩ ⟨403, "denied"⟩).2 =
      Except.error (RequestError.authFailure "Authentication failed or session expired") :=
  (request_error_taxonomy ⟨true, ["sid"]⟩ ⟨403, "denied"⟩).1 rfl

/-- C6: when `auth/login` answers successfully (status below 400) with a
body not containing "Ok.", `login` raises the invalid-credentials error
and the authenticated flag remains false. -/
theorem login_bad_body_auth_error (st : ClientState) (resp : HttpResponse)
    (hst : st.authenticated = false)
    (hok : resp.status_code < 400)
    (hbody : strContains resp.text "Ok." = false) :
    (login st resp).1.authenticated = false ∧
    (login st resp).2 =
      Except.error (RequestError.authFailure "Invalid username or password") := by
  simp [login, request_of_lt400 st resp hok, hbody, hst]

/-- Witness for C6 at a concrete non-"Ok." login response. -/
theorem login_bad_body_auth_error_witness :
    (login ⟨false, []⟩ ⟨200, "Denied"⟩).1.authenticated = false ∧
    (login ⟨false, []⟩ ⟨200, "Denied"⟩).2 =
      Except.error (RequestError.authFailure "Invalid username or password") :=
  login_bad_body_auth_error ⟨false, []⟩ ⟨200, "Denied"⟩ rfl (by decide) (by decide)

/-- C10: whatever the `auth/logout` exchange did — success, HTTP error, or
a network-level exception — the `finally` block leaves the authenticated
flag false and the cookie jar empty. -/
theorem logout_always_invalidates (st : ClientState) (out : NetOutcome) :
    (logout st out).1.authenticated = false ∧ (logout st out).1.cookies = [] :=
  ⟨rfl, rfl⟩

/-- C4 counterexample: `delete_torrents` performs no emptiness validation —
with an empty hashes collection it still produces the HTTP request (with
an empty `hashes` field) instead of failing. -/
theorem delete_empty_hashes_sends_request :
    delete_torrents [] false =
      Except.ok { path := "torrents/delete", hashes := "", deleteFiles := some "false" } :=
  rfl

/-- C4 amended: pause, resume, recheck, and both priority actions fail
with the `ValueError` and send no request whenever the joined hash string
is empty (in particular on an empty collection); `delete_torrents` is the
exception — it validates nothing and sends the request regardless. -/
theorem bulk_empty_hashes_validation_amended :
    (∀ hashes : List String, joinHashes hashes = "" →
      pause_torrents hashes = Except.error "At least one torrent hash is required" ∧
      resume_torrents hashes = Except.error "At least one torrent hash is required" ∧
      recheck_torrents hashes = Except.error "At least one torrent hash is required" ∧
      increase_priority hashes = Except.error "At least one torrent hash is required" ∧
      decrease_priority hashes = Except.error "At least one torrent hash is required") ∧
    (∀ df : Bool, delete_torrents [] df =
      Except.ok { path := "torrents/delete", hashes := "",
                  deleteFiles := some (if df then "true" else "false") }) := by
  constructor
  · intro hashes h
    refine ⟨?_, ?_, ?_, ?_, ?_⟩ <;>
      simp [pause_torrents, resume_torrents, recheck_torrents,
            increase_priority, decrease_priority, bulk_action, h]
  · intro df
    rfl

/-- Witness for the amended C4 at the empty collection. -/
theorem bulk_empty_hashes_validation_amended_witness :
    pause_torrents [] = Except.error "At least one torrent hash is required" ∧
    delete_torrents [] true =
      Except.ok { path := "torrents/delete", hashes := "", deleteFiles := some "true" } :=
  ⟨(bulk_empty_hashes_validation_amended.1 [] rfl).1,
   bulk_empty_hashes_validation_amended.2 true⟩

/-- C9: with an empty selection the delete command never reaches the
endpoint-calling branch, and in a connected session it produces the
"Select a torrent first" message. -/
theorem delete_empty_selection_guard
    (auth confirmDelete userConfirms deleteFiles : Bool) :
    (∀ (hs : List String) (df : Bool),
      delete_selected auth [] confirmDelete userConfirms deleteFiles ≠
        DeleteOutcome.endpointCalled hs df) ∧
    (auth = true →
      delete_selected auth [] confirmDelete userConfirms deleteFiles =
        DeleteOutcome.requireSelection "Select a torrent first") := by
  cases auth <;> simp [delete_selected]

/-- Witness for C9 in a connected session. -/
theorem delete_empty_selection_guard_witness :
    delete_selected true [] true true false =
      DeleteOutcome.requireSelection "Select a torrent first" :=
  (delete_empty_selection_guard true true true false).2 rfl

/-- C1: the displayed set after client-side filtering is exactly the
latest snapshot narrowed by the status-or-tracker filter intersected with
the case-insensitive substring search, and the rendered hash list is its
identifier sequence. -/
theorem displayed_set_equals_filter_intersection
    (torrents : List TorrentDetail) (tm : TrackerMap) (sel searchRaw : String) :
    (∀ t, t ∈ applyClientSideFilters torrents tm sel searchRaw ↔
       (t ∈ torrents ∧ specFilterKeeps tm sel t ∧ specSearchMatches searchRaw t)) ∧
    (∀ (announce : Bool) (st : DisplayState),
       (applyFiltersStep torrents tm sel searchRaw announce st).displayedHashes =
         (applyClientSideFilters torrents tm sel searchRaw).map (fun t => t.infohash_v1)) := by
  constructor
  · intro t
    simp only [applyClientSideFilters, specFilterKeeps, specSearchMatches]
    by_cases hA : (!(FILTER_CHOICES.contains sel) && sel != "") = true
    · rw [if_neg (trackerCond_true sel hA)]
      by_cases hB : (pyLower (pyStrip searchRaw) != "") = true
      · simp only [hA, hB, if_true]
        simp only [List.mem_filter, List.elem_iff]
        tauto
      · have hB' : pyLower (pyStrip searchRaw) = "" := by
          simpa using hB
        simp only [hA, hB, if_true, if_false]
        simp [List.mem_filter, List.elem_iff, hB', strContains_empty_pat, and_assoc]
    · rw [if_pos (trackerCond_false sel hA)]
      by_cases hB : (pyLower (pyStrip searchRaw) != "") = true
      · simp only [hA, hB, if_true, if_false]
        simp [List.mem_filter]
      · have hB' : pyLower (pyStrip searchRaw) = "" := by
          simpa using hB
        simp only [hA, hB, if_false]
        simp [hB', strContains_empty_pat]
  · intro announce st
    simp only [applyFiltersStep]
    by_cases h : (applyClientSideFilters torrents tm sel searchRaw).map
        (fun t => t.infohash_v1) = st.displayedHashes
    · rw [if_pos h]
      cases announce <;> simp [h]
    · rw [if_neg h]

/-- Witness for C1: spec section 8's scenarios — snapshot `[{id "a",
name "X"}]` with search "x" displays `["a"]`; a tracker-host filter
"tracker.example.com" keeps exactly the torrent whose entry has that
host. -/
theorem displayed_set_equals_filter_intersection_witness :
    (sampleTorrentA ∈ applyClientSideFilters [sampleTorrentA] [] "all" "x" ↔
      (sampleTorrentA ∈ [sampleTorrentA] ∧ specFilterKeeps [] "all" sampleTorrentA ∧
        specSearchMatches "x" sampleTorrentA)) ∧
    (sampleTorrentB ∈ applyClientSideFilters [sampleTorrentA, sampleTorrentB]
        [("b", ["tracker.example.com"])] "tracker.example.com" "" ↔
      (sampleTorrentB ∈ [sampleTorrentA, sampleTorrentB] ∧
        specFilterKeeps [("b", ["tracker.example.com"])] "tracker.example.com" sampleTorrentB ∧
        specSearchMatches "" sampleTorrentB)) :=
  ⟨(displayed_set_equals_filter_intersection [sampleTorrentA] [] "all" "x").1 sampleTorrentA,
   (displayed_set_equals_filter_intersection [sampleTorrentA, sampleTorrentB]
      [("b", ["tracker.example.com"])] "tracker.example.com" "").1 sampleTorrentB⟩

/-- C2: when the computed ordered identifier sequence equals the currently
displayed one, no re-render happens (the render counter and rendered list
are untouched, only the status line may change); and applying the filter
computation twice with unchanged inputs equals applying it once. -/
theorem refresh_skip_and_idempotence
    (torrents : List TorrentDetail) (tm : TrackerMap) (sel searchRaw : String)
    (announce : Bool) (st : DisplayState) :
    ((applyClientSideFilters torrents tm sel searchRaw).map (fun t => t.infohash_v1) =
        st.displayedHashes →
      (applyFiltersStep torrents tm sel searchRaw announce st).renderCount = st.renderCount ∧
      (applyFiltersStep torrents tm sel searchRaw announce st).renderedList = st.renderedList ∧
      (applyFiltersStep torrents tm sel searchRaw announce st).displayedHashes =
        st.displayedHashes) ∧
    applyFiltersStep torrents tm sel searchRaw announce
        (applyFiltersStep torrents tm sel searchRaw announce st) =
      applyFiltersStep torrents tm sel searchRaw announce st := by
  constructor
  · intro h
    simp only [applyFiltersStep]
    rw [if_pos h]
    cases announce <;> simp
  · by_cases h : (applyClientSideFilters torrents tm sel searchRaw).map
        (fun t => t.infohash_v1) = st.displayedHashes
    · cases announce with
      | false =>
        have hstep : applyFiltersStep torrents tm sel searchRaw false st = st := by
          simp only [applyFiltersStep]
          rw [if_pos h]
          simp
        rw [hstep]
        exact hstep
      | true =>
        have hstep : applyFiltersStep torrents tm sel searchRaw true st =
            { st with status := some ("Loaded " ++
                toString (applyClientSideFilters torrents tm sel searchRaw).length ++
                " torrents") } := by
          simp only [applyFiltersStep]
          rw [if_pos h]
          simp
        rw [hstep]
        simp only [applyFiltersStep]
        rw [if_pos h]
        simp
    · have hstep : applyFiltersStep torrents tm sel searchRaw announce st =
          { displayedHashes := (applyClientSideFilters torrents tm sel searchRaw).map
              (fun t => t.infohash_v1),
            renderedList := applyClientSideFilters torrents tm sel searchRaw,
            status := if announce then some ("Loaded " ++
                toString (applyClientSideFilters torrents tm sel searchRaw).length ++
                " torrents") else st.status,
            renderCount := st.renderCount + 1 } := by
        simp only [applyFiltersStep]
        rw [if_neg h]
      rw [hstep]
      simp only [applyFiltersStep]
      cases announce <;> simp

/-- Witness for C2: with an unchanged identifier sequence the render
counter and rendered list are untouched. -/
theorem refresh_skip_and_idempotence_witness :
    (applyFiltersStep [sampleTorrentA] [] "all" "" true
        { displayedHashes := ["a"], renderedList := [sampleTorrentA],
          status := none, renderCount := 3 }).renderCount = 3 ∧
    (applyFiltersStep [sampleTorrentA] [] "all" "" true
        { displayedHashes := ["a"], renderedList := [sampleTorrentA],
          status := none, renderCount := 3 }).renderedList = [sampleTorrentA] :=
  ⟨((refresh_skip_and_idempotence [sampleTorrentA] [] "all" "" true
      { displayedHashes := ["a"], renderedList := [sampleTorrentA],
        status := none, renderCount := 3 }).1 (by decide)).1,
   ((refresh_skip_and_idempotence [sampleTorrentA] [] "all" "" true
      { displayedHashes := ["a"], renderedList := [sampleTorrentA],
        status := none, renderCount := 3 }).1 (by decide)).2.1⟩

theorem assocHasKey_iff {α : Type} (m : List (String × α)) (k : String) :
    assocHasKey m k = true ↔ ∃ p, p ∈ m ∧ p.1 = k := by
  simp [assocHasKey, List.any_eq_true, beq_iff_eq]

theorem assocHasKey_insert_iff {α : Type} (m : List (String × α))
    (k k' : String) (v : α) :
    assocHasKey (assocInsert m k v) k' = true ↔
      (assocHasKey m k' = true ∨ k' = k) := by
  by_cases hm : assocHasKey m k = true
  · simp only [assocInsert, hm, if_true]
    rw [assocHasKey_iff, assocHasKey_iff]
    constructor
    · rintro ⟨p, hp, hk⟩
      rcases List.mem_map.mp hp with ⟨q, hq, hpq⟩
      by_cases hqk : (q.1 == k) = true
      · rw [if_pos hqk] at hpq
        right
        rw [← hk, ← hpq]
      · rw [if_neg hqk] at hpq
        exact Or.inl ⟨q, hq, by rw [hpq, hk]⟩
    · rintro (⟨p, hp, hk⟩ | hk)
      · by_cases hpk : (p.1 == k) = true
        · refine ⟨(k, v), List.mem_map.mpr ⟨p, hp, by rw [if_pos hpk]⟩, ?_⟩
          rw [← hk]
          exact (beq_iff_eq.mp hpk).symm
        · exact ⟨p, List.mem_map.mpr ⟨p, hp, by rw [if_neg hpk]⟩, hk⟩
      · rcases (assocHasKey_iff m k).mp hm with ⟨p, hp, hpk⟩
        refine ⟨(k, v), List.mem_map.mpr ⟨p, hp, ?_⟩, hk.symm⟩
        rw [if_pos (beq_iff_eq.mpr hpk)]
  · simp only [assocInsert, hm, if_false]
    rw [assocHasKey_iff, assocHasKey_iff]
    constructor
    · rintro ⟨p, hp, hk⟩
      rcases List.mem_append.mp hp with h | h
      · exact Or.inl ⟨p, h, hk⟩
      · right
        rw [← hk]
        rw [List.mem_singleton.mp h]
    · rintro (⟨p, hp, hk⟩ | hk)
      · exact ⟨p, List.mem_append.mpr (Or.inl hp), hk⟩
      · exact ⟨(k, v), List.mem_append.mpr (Or.inr (List.mem_singleton.mpr rfl)), hk.symm⟩

theorem runTrackerWorker_preserves_keys (lookup : String → Option (List String))
    (fetchList : List String) (tm : TrackerMap) (k : String)
    (h : assocHasKey tm k = true) :
    assocHasKey (runTrackerWorker tm lookup fetchList) k = true := by
  induction fetchList generalizing tm with
  | nil => exact h
  | cons f rest ih =>
    simp only [runTrackerWorker, List.foldl_cons]
    cases lookup f with
    | none => exact ih tm h
    | some raws =>
      exact ih (assocInsert tm f (extractHosts raws))
        ((assocHasKey_insert_iff tm f k (extractHosts raws)).mpr (Or.inl h))

theorem runTrackerWorker_records (lookup : String → Option (List String))
    (fetchList : List String) (tm : TrackerMap) (h : String)
    (hmem : h ∈ fetchList) (hsome : (lookup h).isSome = true) :
    assocHasKey (runTrackerWorker tm lookup fetchList) h = true := by
  induction fetchList generalizing tm with
  | nil => cases hmem
  | cons f rest ih =>
    simp only [runTrackerWorker, List.foldl_cons]
    rcases List.mem_cons.mp hmem with heq | hrest
    · subst heq
      cases hl : lookup h with
      | none => rw [hl] at hsome; cases hsome
      | some raws =>
        exact runTrackerWorker_preserves_keys lookup rest _ h
          ((assocHasKey_insert_iff tm h h (extractHosts raws)).mpr (Or.inr rfl))
    · cases lookup f with
      | none => exact ih tm hrest
      | some raws => exact ih (assocInsert tm f (extractHosts raws)) hrest

/-- C3: per fetch cycle at most `MAX_TRACKER_LOOKUPS_PER_REFRESH` (40)
lookups are started, all for identifiers without a tracker-map entry (so
an identifier with an entry is never looked up again); every completed
lookup records an entry for its identifier; existing entries are never
removed by the worker; and a disconnect / profile switch clears the
cache. -/
theorem tracker_lookup_discipline (torrents : List TorrentDetail)
    (tm : TrackerMap) (lookup : String → Option (List String)) :
    (toFetch torrents tm).length ≤ MAX_TRACKER_LOOKUPS_PER_REFRESH ∧
    (∀ h, h ∈ toFetch torrents tm → assocHasKey tm h = false) ∧
    (∀ fetchList k, assocHasKey tm k = true →
      assocHasKey (runTrackerWorker tm lookup fetchList) k = true) ∧
    (∀ h, h ∈ toFetch torrents tm → (lookup h).isSome = true →
      assocHasKey (ensureTrackerHosts torrents tm lookup) h = true) ∧
    (∀ c, (clearCaches c).tracker_map = []) := by
  refine ⟨?_, ?_, ?_, ?_, ?_⟩
  · exact List.length_take_le _ _
  · intro h hmem
    have hmiss : h ∈ missingHashes torrents tm := List.mem_of_mem_take hmem
    rcases List.mem_map.mp hmiss with ⟨t, ht, hth⟩
    have := List.mem_filter.mp ht
    rw [← hth]
    simpa using this.2
  · intro fetchList k hk
    exact runTrackerWorker_preserves_keys lookup fetchList tm k hk
  · intro h hmem hsome
    exact runTrackerWorker_records lookup (toFetch torrents tm) tm h hmem hsome
  · intro c
    rfl

/-- Witness for C3: a lookup for the uncached torrent "a" completes and
records an entry, so "a" is no longer missing on the next cycle. -/
theorem tracker_lookup_discipline_witness :
    assocHasKey ([] : TrackerMap) "a" = false ∧
    assocHasKey
      (ensureTrackerHosts [sampleTorrentA] []
        (fun _ => some ["Tracker.example.com "])) "a" = true :=
  ⟨(tracker_lookup_discipline [sampleTorrentA] []
      (fun _ => some ["Tracker.example.com "])).2.1 "a" (by decide),
   (tracker_lookup_discipline [sampleTorrentA] []
      (fun _ => some ["Tracker.example.com "])).2.2.2.1 "a" (by decide) rfl⟩

/-! ### Settings store lemmas -/

theorem connFromDictOr_connToJson (c : ConnRecord) :
    connFromDictOr (connToJson c) = some c := rfl

theorem assocInsert_of_hasKey_false {α : Type} (m : List (String × α))
    (k : String) (v : α) (h : assocHasKey m k = false) :
    assocInsert m k v = m ++ [(k, v)] := by
  simp [assocInsert, h]

theorem assocHasKey_append_false {α : Type} (m : List (String × α))
    (k q : String) (v : α) (hm : assocHasKey m q = false) (hne : q ≠ k) :
    assocHasKey (m ++ [(k, v)]) q = false := by
  cases hb : assocHasKey (m ++ [(k, v)]) q with
  | false => rfl
  | true =>
    exfalso
    rcases (assocHasKey_iff _ q).mp hb with ⟨p, hp, hpk⟩
    rcases List.mem_append.mp hp with h | h
    · have : assocHasKey m q = true := (assocHasKey_iff m q).mpr ⟨p, h, hpk⟩
      rw [hm] at this
      exact Bool.false_ne_true this
    · rw [List.mem_singleton.mp h] at hpk
      exact hne hpk.symm

theorem assocInsert_keysNodup {α : Type} (m : List (String × α)) (k : String)
    (v : α) (h : KeysNodup m) : KeysNodup (assocInsert m k v) := by
  by_cases hk : assocHasKey m k = true
  · have heq : (assocInsert m k v).map Prod.fst = m.map Prod.fst := by
      simp only [assocInsert, hk, if_true, List.map_map]
      apply List.map_congr_left
      intro p _
      by_cases hp : (p.1 == k) = true
      · simp [Function.comp, hp, (beq_iff_eq.mp hp).symm]
      · simp [Function.comp, hp]
    unfold KeysNodup
    rw [heq]
    exact h
  · have hk' : assocHasKey m k = false := by
      cases hb : assocHasKey m k with
      | false => rfl
      | true => exact absurd hb hk
    have heq : (assocInsert m k v).map Prod.fst = m.map Prod.fst ++ [k] := by
      rw [assocInsert_of_hasKey_false m k v hk']
      simp
    unfold KeysNodup
    rw [heq]
    refine List.Nodup.append h (List.nodup_singleton k) ?_
    intro a ha hb
    rw [List.mem_singleton.mp hb] at ha
    rcases List.mem_map.mp ha with ⟨p, hp, hpk⟩
    exact hk ((assocHasKey_iff m k).mpr ⟨p, hp, hpk⟩)

theorem foldConn_keysNodup (pfs : List (String × JValue)) :
    ∀ acc : List (String × ConnRecord), KeysNodup acc →
      KeysNodup (pfs.foldl
        (fun m p =>
          match connFromDictOr p.2 with
          | some c => assocInsert m p.1 c
          | none => m)
        acc) := by
  induction pfs with
  | nil => exact fun acc h => h
  | cons a l ih =>
    intro acc h
    simp only [List.foldl_cons]
    cases connFromDictOr a.2 with
    | none => exact ih acc h
    | some c => exact ih _ (assocInsert_keysNodup acc a.1 c h)

theorem parsedProfiles_keysNodup (fields : List (String × JValue)) :
    KeysNodup (parsedProfiles fields) := by
  simp only [parsedProfiles]
  split
  · exact foldConn_keysNodup _ [] List.nodup_nil
  · exact List.nodup_nil

theorem foldConn_append (ps : List (String × ConnRecord)) :
    ∀ acc : List (String × ConnRecord),
      (∀ q ∈ ps, assocHasKey acc q.1 = false) → KeysNodup ps →
      List.foldl
        (fun m p =>
          match connFromDictOr p.2 with
          | some c => assocInsert m p.1 c
          | none => m)
        acc (ps.map (fun p => (p.1, connToJson p.2))) = acc ++ ps := by
  induction ps with
  | nil =>
    intro acc _ _
    simp
  | cons a l ih =>
    intro acc hfresh hnd
    simp only [List.map_cons, List.foldl_cons, connFromDictOr_connToJson]
    rw [assocInsert_of_hasKey_false acc a.1 a.2 (hfresh a (List.mem_cons_self a l))]
    have hnd' : KeysNodup l := by
      unfold KeysNodup at hnd ⊢
      exact (List.nodup_cons.mp hnd).2
    have hfst : a.1 ∉ l.map Prod.fst := (List.nodup_cons.mp hnd).1
    have hfresh' : ∀ q ∈ l, assocHasKey (acc ++ [(a.1, a.2)]) q.1 = false := by
      intro q hq
      refine assocHasKey_append_false acc a.1 q.1 a.2
        (hfresh q (List.mem_cons_of_mem a hq)) ?_
      intro hqa
      exact hfst (hqa ▸ List.mem_map.mpr ⟨q, hq, rfl⟩)
    rw [ih (acc ++ [(a.1, a.2)]) hfresh' hnd']
    simp

theorem parsedProfiles_save (s : AppSettingsM) (hne : s.profiles ≠ [])
    (hnd : KeysNodup s.profiles) :
    parsedProfiles (saveFields s) = s.profiles := by
  simp only [parsedProfiles]
  rw [show assocGetD (saveFields s) "profiles" JValue.null =
      JValue.obj (s.profiles.map (fun p => (p.1, connToJson p.2))) from rfl]
  have htr : jTruthy (JValue.obj (s.profiles.map (fun p => (p.1, connToJson p.2)))) = true := by
    cases hps : s.profiles with
    | nil => exact absurd hps hne
    | cons a l => simp [jTruthy, hps]
  rw [if_pos htr]
  have := foldConn_append s.profiles [] (fun q _ => rfl) hnd
  simpa using this

theorem resolveActive_str (ps : List (String × ConnRecord)) (a : String)
    (hne : a ≠ "") (hmem : assocHasKey ps a = true) :
    resolveActive ps (JValue.str a) = a := by
  have htr : jTruthy (JValue.str a) = true := by
    simp [jTruthy]
    exact hne
  simp only [resolveActive, htr, if_true]
  rw [show jToPyStr (JValue.str a) = a from rfl]
  rw [if_pos hmem]

theorem resolveActive_hasKey (ps : List (String × ConnRecord)) (raw : JValue)
    (hne : ps ≠ []) : assocHasKey ps (resolveActive ps raw) = true := by
  simp only [resolveActive]
  by_cases hk : assocHasKey ps
      (jToPyStr (if jTruthy raw then raw else JValue.str "Default")) = true
  · rw [if_pos hk]
    exact hk
  · rw [if_neg hk]
    cases ps with
    | nil => exact absurd rfl hne
    | cons p l => simp [assocHasKey]

theorem loadDoc_save (s : AppSettingsM) (hne : s.profiles ≠ [])
    (hnd : KeysNodup s.profiles)
    (hak : assocHasKey s.profiles s.active_profile = true)
    (hane : s.active_profile ≠ "") :
    loadDoc (save_settings s) =
      some { s with configured := true,
                    connection :=
                      assocGetD s.profiles s.active_profile defaultConnRecord } := by
  show loadDoc (JValue.obj (saveFields s)) = _
  simp only [loadDoc]
  rw [parsedProfiles_save s hne hnd]
  have hie : s.profiles.isEmpty = false := by
    cases hps : s.profiles with
    | nil => exact absurd hps hne
    | cons a l => rfl
  rw [if_neg (by simp [hie])]
  rw [show assocGetD (saveFields s) "active_profile" JValue.null =
      JValue.str s.active_profile from rfl]
  rw [resolveActive_str s.profiles s.active_profile hane hak]
  rw [show jToInt (assocGetD (saveFields s) "refresh_seconds" (JValue.num 5)) =
      some s.refresh_seconds from rfl]
  rfl

theorem loadDoc_inv (doc : JValue) (v : AppSettingsM) (h : loadDoc doc = some v) :
    v.profiles ≠ [] ∧ KeysNodup v.profiles ∧
    assocHasKey v.profiles v.active_profile = true ∧
    v.connection = assocGetD v.profiles v.active_profile defaultConnRecord := by
  cases doc with
  | null => exact absurd h (by simp [loadDoc])
  | bool b => exact absurd h (by simp [loadDoc])
  | num n => exact absurd h (by simp [loadDoc])
  | str s => exact absurd h (by simp [loadDoc])
  | arr xs => exact absurd h (by simp [loadDoc])
  | obj fields =>
    simp only [loadDoc] at h
    by_cases hie : (parsedProfiles fields).isEmpty = true
    · rw [if_pos hie] at h
      cases hc : connStrict (assocGetD fields "connection" (JValue.obj [])) with
      | none =>
        rw [hc] at h
        exact absurd h (by simp)
      | some single =>
        rw [hc] at h
        cases hi : jToInt (assocGetD fields "refresh_seconds" (JValue.num 5)) with
        | none =>
          rw [hi] at h
          exact absurd h (by simp)
        | some r =>
          rw [hi] at h
          simp only [Option.map_some', Option.some.injEq] at h
          rw [← h]
          refine ⟨by simp, by simp [KeysNodup], rfl, rfl⟩
    · rw [if_neg hie] at h
      have hne : parsedProfiles fields ≠ [] := by
        intro hnil
        rw [hnil] at hie
        exact hie rfl
      cases hi : jToInt (assocGetD fields "refresh_seconds" (JValue.num 5)) with
      | none =>
        rw [hi] at h
        exact absurd h (by simp)
      | some r =>
        rw [hi] at h
        simp only [Option.some.injEq] at h
        rw [← h]
        exact ⟨hne, parsedProfiles_keysNodup fields,
          resolveActive_hasKey (parsedProfiles fields) _ hne, rfl⟩

theorem load_settings_inv (fs : FileState) :
    (load_settings fs).profiles ≠ [] ∧
    KeysNodup (load_settings fs).profiles ∧
    assocHasKey (load_settings fs).profiles (load_settings fs).active_profile = true ∧
    (load_settings fs).connection =
      assocGetD (load_settings fs).profiles (load_settings fs).active_profile
        defaultConnRecord := by
  have hdef : defaultAppSettings.profiles ≠ [] ∧
      KeysNodup defaultAppSettings.profiles ∧
      assocHasKey defaultAppSettings.profiles defaultAppSettings.active_profile = true ∧
      defaultAppSettings.connection =
        assocGetD defaultAppSettings.profiles defaultAppSettings.active_profile
          defaultConnRecord := by
    exact ⟨by simp [defaultAppSettings], by simp [defaultAppSettings, KeysNodup],
      rfl, rfl⟩
  cases fs with
  | absent => exact hdef
  | malformed => exact hdef
  | parsed doc =>
    cases hd : loadDoc doc with
    | none => simpa [load_settings, hd] using hdef
    | some v => simpa [load_settings, hd] using loadDoc_inv doc v hd

/-- C7: `load_settings` is total — absent files, malformed JSON, and any
exception inside the parsing `try` body all yield the default settings —
and whenever the document carries no non-empty profiles mapping it
synthesizes a single "Default" profile (from the legacy connection field
when that parses) and makes it active. -/
theorem load_settings_total_and_default_synthesis :
    load_settings FileState.absent = defaultAppSettings ∧
    load_settings FileState.malformed = defaultAppSettings ∧
    (∀ doc, loadDoc doc = none →
      load_settings (FileState.parsed doc) = defaultAppSettings) ∧
    (∀ fields, (parsedProfiles fields).isEmpty = true →
      (load_settings (FileState.parsed (JValue.obj fields))).active_profile = "Default" ∧
      ∃ c, (load_settings (FileState.parsed (JValue.obj fields))).profiles =
        [("Default", c)]) ∧
    (∀ fields c r, (parsedProfiles fields).isEmpty = true →
      connStrict (assocGetD fields "connection" (JValue.obj [])) = some c →
      jToInt (assocGetD fields "refresh_seconds" (JValue.num 5)) = some r →
      (load_settings (FileState.parsed (JValue.obj fields))).profiles =
        [("Default", c)] ∧
      (load_settings (FileState.parsed (JValue.obj fields))).active_profile =
        "Default") := by
  refine ⟨rfl, rfl, ?_, ?_, ?_⟩
  · intro doc h
    simp [load_settings, h]
  · intro fields hie
    cases hc : connStrict (assocGetD fields "connection" (JValue.obj [])) with
    | none =>
      refine ⟨?_, defaultConnRecord, ?_⟩ <;>
        simp [load_settings, loadDoc, hie, hc, defaultAppSettings]
    | some single =>
      cases hi : jToInt (assocGetD fields "refresh_seconds" (JValue.num 5)) with
      | none =>
        refine ⟨?_, defaultConnRecord, ?_⟩ <;>
          simp [load_settings, loadDoc, hie, hc, hi, defaultAppSettings]
      | some r =>
        refine ⟨?_, single, ?_⟩ <;>
          simp [load_settings, loadDoc, hie, hc, hi]
  · intro fields c r hie hc hi
    constructor <;> simp [load_settings, loadDoc, hie, hc, hi]

/-- Witness for C7: a legacy document with only a `connection` field loads
into a single active "Default" profile built from that field. -/
theorem load_settings_total_and_default_synthesis_witness :
    (load_settings (FileState.parsed (JValue.obj sampleLegacyFields))).profiles =
      [("Default", sampleLegacyConn)] ∧
    (load_settings (FileState.parsed (JValue.obj sampleLegacyFields))).active_profile =
      "Default" :=
  load_settings_total_and_default_synthesis.2.2.2.2 sampleLegacyFields
    sampleLegacyConn 5 rfl rfl rfl

/-- C8 counterexample: for the settings value with an empty profiles map
and active profile "X", `load(save(s))` resolves the active profile to
"Default", not "X" — the round-trip does not reconstruct the same active
profile for every `AppSettings` value. -/
theorem settings_roundtrip_counterexample :
    sampleNoProfiles.active_profile = "X" ∧
    (load_settings (FileState.parsed (save_settings sampleNoProfiles))).active_profile =
      "Default" :=
  ⟨rfl, rfl⟩

/-- C8 amended: `load(save(s))` reconstructs the profiles and active
profile for every settings value whose profiles map is non-empty with
distinct names and whose active profile is a non-empty name of the map
(invariants every settings value the application builds satisfies); and
save-then-load-then-save applied twice yields the identical persisted
JSON whenever the first load resolves a non-empty active profile name. -/
theorem settings_roundtrip_amended :
    (∀ s : AppSettingsM, s.profiles ≠ [] → KeysNodup s.profiles →
      assocHasKey s.profiles s.active_profile = true → s.active_profile ≠ "" →
      (load_settings (FileState.parsed (save_settings s))).profiles = s.profiles ∧
      (load_settings (FileState.parsed (save_settings s))).active_profile =
        s.active_profile) ∧
    (∀ fs : FileState, (load_settings fs).active_profile ≠ "" →
      save_settings (load_settings (FileState.parsed (save_settings (load_settings fs)))) =
        save_settings (load_settings fs)) := by
  constructor
  · intro s hne hnd hak hane
    have h := loadDoc_save s hne hnd hak hane
    constructor <;> simp [load_settings, h]
  · intro fs hane
    obtain ⟨hne, hnd, hak, hconn⟩ := load_settings_inv fs
    have h := loadDoc_save (load_settings fs) hne hnd hak hane
    have h2 : load_settings (FileState.parsed (save_settings (load_settings fs))) =
        { load_settings fs with
          configured := true,
          connection := assocGetD (load_settings fs).profiles
            (load_settings fs).active_profile defaultConnRecord } := by
      show (loadDoc (save_settings (load_settings fs))).getD defaultAppSettings = _
      rw [h]
      rfl
    rw [h2, ← hconn]
    rfl

/-- Witness for the amended C8: a one-profile settings value round-trips,
and the save-load-save pipeline starting from an absent file is already a
fixed point. -/
theorem settings_roundtrip_amended_witness :
    ((load_settings (FileState.parsed (save_settings sampleOneProfile))).profiles =
        sampleOneProfile.profiles ∧
      (load_settings (FileState.parsed (save_settings sampleOneProfile))).active_profile =
        sampleOneProfile.active_profile) ∧
    save_settings (load_settings (FileState.parsed
        (save_settings (load_settings FileState.absent)))) =
      save_settings (load_settings FileState.absent) :=
  ⟨settings_roundtrip_amended.1 sampleOneProfile
      (by simp [sampleOneProfile])
      (by simp [sampleOneProfile, KeysNodup])
      (by decide) (by decide),
   settings_roundtrip_amended.2 FileState.absent (by decide)⟩

end QRemote
